import Mathlib

/-!
Verification of the MCMC visualizer sampling core.

The development shallowly embeds the target-density module
(`src/services/distribution.ts`) and the four sampler generators
(`mhGenerator`, `gibbsGenerator`, `hmcGenerator`, `nutsGenerator`) over the
real numbers.  Generators are modelled as functions from the current point,
the parameters, the mixture and the sequence of random draws consumed during
one cycle to the list of emitted step records together with the returned
point; each random draw (`randn()` or `Math.random()`) is an explicit real
argument, in the order the source consumes them.  String `description`
fields, which only interpolate already-recorded numbers, are not modelled.
-/

noncomputable section

open Real

/-- A 2-D point, `{x, y}` from `types.ts`. -/
structure Point where
  x : ℝ
  y : ℝ

/-- One Gaussian mixture component from `types.ts`: mean, 2x2 covariance
(row-major pairs), weight. -/
structure GMMComponent where
  id : ℤ
  mu : ℝ × ℝ
  sigma : (ℝ × ℝ) × (ℝ × ℝ)
  weight : ℝ

/-- Simulation parameters from `types.ts`; `numSteps` is optional
(`numSteps?: number`). -/
structure SimulationParams where
  stepSize : ℝ
  numSteps : Option ℕ
  friction : Option ℝ

/-- The fixed phase vocabulary used in the `details.phase` strings. -/
inductive Phase where
  | proposal
  | compute
  | momentum
  | leapfrog
  | tree_build
  | move_x
  | move_y
  | accept
  | reject
deriving DecidableEq

/-- Diagnostics attached to one emission (`StepDetails` in `types.ts`),
without the free-text description. -/
structure StepDetails where
  logProbCurrent : Option ℝ := none
  logProbProposal : Option ℝ := none
  acceptanceProb : Option ℝ := none
  currentH : Option ℝ := none
  proposedH : Option ℝ := none
  gradient : Option Point := none
  phase : Option Phase := none

/-- One emission of a sampler generator (`StepResult` in `types.ts`). -/
structure StepResult where
  current : Point
  proposal : Option Point := none
  accepted : Option Bool := none
  path : Option (List Point) := none
  details : StepDetails
  isFinishedStep : Bool
  delay : Option ℕ := none

/-! ## Target density module (`src/services/distribution.ts`) -/

/-- The default two-component mixture `DEFAULT_GMM`. -/
def DEFAULT_GMM : List GMMComponent :=
  [ { id := 1, mu := (-2, -2), sigma := ((1.0, 0.5), (0.5, 1.0)), weight := 0.4 },
    { id := 2, mu := (2, 2), sigma := ((1.2, -0.6), (-0.6, 1.2)), weight := 0.6 } ]

/-- Determinant and closed-form inverse of a component's covariance,
`getGaussianProps` in the source. -/
structure GaussianProps where
  det : ℝ
  invSig : (ℝ × ℝ) × (ℝ × ℝ)

/-- `getGaussianProps`: `det = s00*s11 - s01*s10`, inverse entries divided
by `det`. -/
def getGaussianProps (g : GMMComponent) : GaussianProps :=
  let det := g.sigma.1.1 * g.sigma.2.2 - g.sigma.1.2 * g.sigma.2.1
  { det := det
    invSig := ((g.sigma.2.2 / det, -g.sigma.1.2 / det),
               (-g.sigma.2.1 / det, g.sigma.1.1 / det)) }

/-- `getLogProb`: sum of per-component densities (weight times Gaussian
normalization times `exp(-mahalanobis/2)`), floored by `1e-20`, then `ln`.
The `forEach` accumulation over `sumProb` is a left fold. -/
def getLogProb (p : Point) (components : List GMMComponent) : ℝ :=
  let sumProb := components.foldl (fun sumProb g =>
    let props := getGaussianProps g
    let dx1 := p.x - g.mu.1
    let dx2 := p.y - g.mu.2
    let mahalanobis :=
      dx1 * (props.invSig.1.1 * dx1 + props.invSig.1.2 * dx2) +
      dx2 * (props.invSig.2.1 * dx1 + props.invSig.2.2 * dx2)
    let norm := 1 / (2 * Real.pi * Real.sqrt |props.det|)
    sumProb + g.weight * norm * Real.exp (-0.5 * mahalanobis)) 0
  Real.log (sumProb + 1e-20)

/-- `getGradLogProb`: the source duplicates the per-component density
computation of `getLogProb` and additionally accumulates
`density * (-InvSigma (x - mu))`; the two accumulators `(sumProb, gradSum)`
become one folded triple. -/
def getGradLogProb (p : Point) (components : List GMMComponent) : Point :=
  let acc := components.foldl (fun acc g =>
    let props := getGaussianProps g
    let dx1 := p.x - g.mu.1
    let dx2 := p.y - g.mu.2
    let mahalanobis :=
      dx1 * (props.invSig.1.1 * dx1 + props.invSig.1.2 * dx2) +
      dx2 * (props.invSig.2.1 * dx1 + props.invSig.2.2 * dx2)
    let norm := 1 / (2 * Real.pi * Real.sqrt |props.det|)
    let density := g.weight * norm * Real.exp (-0.5 * mahalanobis)
    let gradExp1 := -(props.invSig.1.1 * dx1 + props.invSig.1.2 * dx2)
    let gradExp2 := -(props.invSig.2.1 * dx1 + props.invSig.2.2 * dx2)
    (acc.1 + density, acc.2.1 + density * gradExp1, acc.2.2 + density * gradExp2))
    ((0 : ℝ), (0 : ℝ), (0 : ℝ))
  let safeProb := acc.1 + 1e-20
  { x := acc.2.1 / safeProb, y := acc.2.2 / safeProb }

/-! ## Spec-side formulation of the density module (§4.1 of the spec)

These definitions follow the spec's words — determinant, inverse scaled by
`1/det`, Mahalanobis form, normalization by `|det|`, per-component density,
sum with the `1e-20` floor — and are compared against the source functions
above. -/

/-- Spec wording: `det = s00*s11 - s01*s10`. -/
def specDet (g : GMMComponent) : ℝ :=
  g.sigma.1.1 * g.sigma.2.2 - g.sigma.1.2 * g.sigma.2.1

/-- Spec wording: the closed-form 2x2 inverse scaled by `1/det`. -/
def specInvSig (g : GMMComponent) : (ℝ × ℝ) × (ℝ × ℝ) :=
  ((1 / specDet g * g.sigma.2.2, 1 / specDet g * (-g.sigma.1.2)),
   (1 / specDet g * (-g.sigma.2.1), 1 / specDet g * g.sigma.1.1))

/-- Spec wording: the Mahalanobis quadratic form `dx^T Sigma^{-1} dx`. -/
def specMahalanobis (p : Point) (g : GMMComponent) : ℝ :=
  let dx1 := p.x - g.mu.1
  let dx2 := p.y - g.mu.2
  dx1 * ((specInvSig g).1.1 * dx1 + (specInvSig g).1.2 * dx2) +
  dx2 * ((specInvSig g).2.1 * dx1 + (specInvSig g).2.2 * dx2)

/-- Spec wording: Gaussian normalization `1/(2 pi sqrt |det|)`; the
absolute value means the determinant's sign is not assumed positive. -/
def specNorm (g : GMMComponent) : ℝ :=
  1 / (2 * Real.pi * Real.sqrt |specDet g|)

/-- Spec wording: per-component density
`weight * norm * exp(-0.5 * mahalanobis)`. -/
def specComponentDensity (p : Point) (g : GMMComponent) : ℝ :=
  g.weight * specNorm g * Real.exp (-0.5 * specMahalanobis p g)

/-- Spec wording: the mixture density, summed across components. -/
def specMixtureSum (p : Point) (G : List GMMComponent) : ℝ :=
  (G.map (specComponentDensity p)).sum

/-- Spec wording: x-component of one component's local gradient
contribution `-Sigma^{-1} dx`. -/
def specGradContribX (p : Point) (g : GMMComponent) : ℝ :=
  -((specInvSig g).1.1 * (p.x - g.mu.1) + (specInvSig g).1.2 * (p.y - g.mu.2))

/-- Spec wording: y-component of one component's local gradient
contribution `-Sigma^{-1} dx`. -/
def specGradContribY (p : Point) (g : GMMComponent) : ℝ :=
  -((specInvSig g).2.1 * (p.x - g.mu.1) + (specInvSig g).2.2 * (p.y - g.mu.2))

/-- Spec wording: numerator of the gradient's x-component, the
density-weighted sum of local contributions. -/
def specGradNumerX (p : Point) (G : List GMMComponent) : ℝ :=
  (G.map (fun g => specComponentDensity p g * specGradContribX p g)).sum

/-- Spec wording: numerator of the gradient's y-component. -/
def specGradNumerY (p : Point) (G : List GMMComponent) : ℝ :=
  (G.map (fun g => specComponentDensity p g * specGradContribY p g)).sum

/-! ## Statement helpers

Named values used by the theorem statements below to abbreviate
quantities of one sampling cycle. -/

/-- The MH proposal: `current + N(0, stepSize^2)` per coordinate, the
normal draws being `r1, r2`. -/
def mhProposal (current : Point) (params : SimulationParams) (r1 r2 : ℝ) : Point :=
  ⟨current.x + r1 * params.stepSize, current.y + r2 * params.stepSize⟩

/-- The MH acceptance probability `min(1, exp(logP(proposal) - logP(current)))`. -/
def mhAcceptProb (current : Point) (params : SimulationParams) (gmm : List GMMComponent)
    (r1 r2 : ℝ) : ℝ :=
  min 1 (Real.exp (getLogProb (mhProposal current params r1 r2) gmm - getLogProb current gmm))

/-- The Gibbs X sub-proposal coordinate. -/
def gibbsPropX (current : Point) (params : SimulationParams) (rX : ℝ) : ℝ :=
  current.x + rX * params.stepSize

/-- The Gibbs Y sub-proposal coordinate. -/
def gibbsPropY (current : Point) (params : SimulationParams) (rY : ℝ) : ℝ :=
  current.y + rY * params.stepSize


/-! ## Sampler state machines (`src/services/samplers.ts`)

Each generator is modelled as a function from its inputs and the random
draws it consumes (in source order) to the pair of the emitted
`StepResult` list and the returned point.  `randn()` results are passed
directly as real arguments; `Math.random()` results likewise. -/

/-- `mhGenerator`: draws `r1, r2` (standard normal) for the proposal and
`dice` (uniform) for the accept test. -/
def mhRun (current : Point) (params : SimulationParams) (gmm : List GMMComponent)
    (r1 r2 dice : ℝ) : List StepResult × Point :=
  let proposal : Point :=
    ⟨current.x + r1 * params.stepSize, current.y + r2 * params.stepSize⟩
  let logProbCurrent := getLogProb current gmm
  let step1 : StepResult :=
    { current := current, proposal := some proposal, isFinishedStep := false,
      delay := some 1500,
      details := { logProbCurrent := some logProbCurrent, phase := some Phase.proposal } }
  let logProbProposal := getLogProb proposal gmm
  let acceptProb := min 1 (Real.exp (logProbProposal - logProbCurrent))
  let step2 : StepResult :=
    { current := current, proposal := some proposal, isFinishedStep := false,
      delay := some 1500,
      details := { logProbCurrent := some logProbCurrent,
                   logProbProposal := some logProbProposal,
                   acceptanceProb := some acceptProb, phase := some Phase.compute } }
  let accepted : Bool := decide (dice < acceptProb)
  let step3 : StepResult :=
    { current := if accepted then proposal else current, proposal := some proposal,
      accepted := some accepted, isFinishedStep := true, delay := some 2000,
      details := { logProbCurrent := some logProbCurrent,
                   logProbProposal := some logProbProposal,
                   acceptanceProb := some acceptProb,
                   phase := some (if accepted then Phase.accept else Phase.reject) } }
  ([step1, step2, step3], if accepted then proposal else current)

/-- `gibbsGenerator`: draws `rX` (normal) and `uX` (uniform) for the X
sub-update, then `rY` and `uY` for the Y sub-update. -/
def gibbsRun (current : Point) (params : SimulationParams) (gmm : List GMMComponent)
    (rX uX rY uY : ℝ) : List StepResult × Point :=
  let step1 : StepResult :=
    { current := current, isFinishedStep := false, delay := some 1000,
      details := { phase := some Phase.compute } }
  let propX := current.x + rX * params.stepSize
  let logProbCurrX := getLogProb current gmm
  let logProbPropX := getLogProb ⟨propX, current.y⟩ gmm
  let acceptProbX := min 1 (Real.exp (logProbPropX - logProbCurrX))
  let nextX := if uX < acceptProbX then propX else current.x
  let intermediate : Point := ⟨nextX, current.y⟩
  let step2 : StepResult :=
    { current := intermediate, proposal := some ⟨propX, current.y⟩,
      isFinishedStep := false, delay := some 2000,
      details := { logProbCurrent := some logProbCurrX,
                   acceptanceProb := some acceptProbX, phase := some Phase.move_x } }
  let propY := current.y + rY * params.stepSize
  let logProbCurrY := getLogProb intermediate gmm
  let logProbPropY := getLogProb ⟨nextX, propY⟩ gmm
  let acceptProbY := min 1 (Real.exp (logProbPropY - logProbCurrY))
  let nextY := if uY < acceptProbY then propY else current.y
  let final : Point := ⟨nextX, nextY⟩
  let moved : Bool := decide (final.x ≠ current.x) || decide (final.y ≠ current.y)
  let step3 : StepResult :=
    { current := final, proposal := some ⟨nextX, propY⟩, accepted := some moved,
      isFinishedStep := true, delay := some 2000,
      details := { logProbCurrent := some logProbCurrY,
                   acceptanceProb := some acceptProbY, phase := some Phase.move_y } }
  ([step1, step2, step3], final)

/-- Effective leapfrog count: `params.numSteps || 10` (JavaScript `||`
treats both a missing field and `0` as falsy). -/
def numStepsEff (params : SimulationParams) : ℕ :=
  match params.numSteps with
  | none => 10
  | some n => if n = 0 then 10 else n

/-- State threaded through the HMC leapfrog loop: position, momentum, last
gradient, accumulated trajectory and emitted records. -/
structure HmcLoopState where
  q : Point
  p : Point
  grad : Point
  path : List Point
  recs : List StepResult

/-- The HMC leapfrog `for` loop, by recursion on the number of remaining
iterations (`n = 0` means the loop is done; the iteration with `n = 1` is
the source's `i = L-1`, which skips the full momentum step). -/
def hmcLoop (current : Point) (gmm : List GMMComponent) (epsilon : ℝ)
    (stepDelay : ℕ) : ℕ → HmcLoopState → HmcLoopState
  | 0, s => s
  | n + 1, s =>
    let q1 : Point := ⟨s.q.x + epsilon * s.p.x, s.q.y + epsilon * s.p.y⟩
    let path1 := s.path ++ [q1]
    let recs1 := s.recs ++
      [{ current := current, path := some path1, isFinishedStep := false,
         delay := some stepDelay,
         details := { phase := some Phase.leapfrog, gradient := some s.grad } }]
    let grad1 := getGradLogProb q1 gmm
    let p1 : Point :=
      if n = 0 then s.p else ⟨s.p.x - epsilon * grad1.x, s.p.y - epsilon * grad1.y⟩
    hmcLoop current gmm epsilon stepDelay n
      { q := q1, p := p1, grad := grad1, path := path1, recs := recs1 }

/-- `hmcGenerator`: draws `r1, r2` (initial momentum) and `dice` (accept
test).  `epsilon = stepSize * 0.5`, `L = numSteps || 10`. -/
def hmcRun (current : Point) (params : SimulationParams) (gmm : List GMMComponent)
    (r1 r2 dice : ℝ) : List StepResult × Point :=
  let epsilon := params.stepSize * 0.5
  let L := numStepsEff params
  let p0 : Point := ⟨r1, r2⟩
  let currentK := 0.5 * (p0.x * p0.x + p0.y * p0.y)
  let currentU := -getLogProb current gmm
  let currentH := currentU + currentK
  let step1 : StepResult :=
    { current := current, isFinishedStep := false, delay := some 1500,
      details := { currentH := some currentH, phase := some Phase.momentum } }
  let grad0 := getGradLogProb current gmm
  let pHalf : Point := ⟨p0.x - epsilon * grad0.x / 2, p0.y - epsilon * grad0.y / 2⟩
  let stepDelay := max 100 (2500 / L)
  let loopOut := hmcLoop current gmm epsilon stepDelay L
    { q := current, p := pHalf, grad := grad0, path := [current], recs := [] }
  let pFinal : Point :=
    ⟨loopOut.p.x - epsilon * loopOut.grad.x / 2, loopOut.p.y - epsilon * loopOut.grad.y / 2⟩
  let proposedU := -getLogProb loopOut.q gmm
  let proposedK := 0.5 * (pFinal.x * pFinal.x + pFinal.y * pFinal.y)
  let proposedH := proposedU + proposedK
  let acceptProb := min 1 (Real.exp (currentH - proposedH))
  let accepted : Bool := decide (dice < acceptProb)
  let step3 : StepResult :=
    { current := if accepted then loopOut.q else current, path := some loopOut.path,
      accepted := some accepted, isFinishedStep := true, delay := some 1500,
      details := { currentH := some currentH, proposedH := some proposedH,
                   acceptanceProb := some acceptProb,
                   phase := some (if accepted then Phase.accept else Phase.reject) } }
  (step1 :: loopOut.recs ++ [step3], if accepted then loopOut.q else current)

/-- State threaded through the NUTS tree-building `while` loop. -/
structure NutsState where
  q : Point
  p : Point
  grad : Point
  path : List Point
  validCandidates : List Point
  stopped : Bool
  steps : ℕ
  recs : List StepResult

/-- One iteration of the NUTS tree-building loop: full leapfrog step,
divergence test (`currH - startH > 1000`), slice test (`-currH ≥ log_u`),
U-turn test (`dot < 0`; on U-turn the momentum step and the `steps`
increment are skipped). -/
def nutsBody (current : Point) (gmm : List GMMComponent) (epsilon startH log_u : ℝ)
    (s : NutsState) : NutsState :=
  let q1 : Point := ⟨s.q.x + epsilon * s.p.x, s.q.y + epsilon * s.p.y⟩
  let grad1 := getGradLogProb q1 gmm
  let currU := -getLogProb q1 gmm
  let pFullX := s.p.x - epsilon * grad1.x / 2
  let pFullY := s.p.y - epsilon * grad1.y / 2
  let currK := 0.5 * (pFullX * pFullX + pFullY * pFullY)
  let currH := currU + currK
  let stopped1 : Bool := if currH - startH > 1000 then true else s.stopped
  let dot := (q1.x - current.x) * s.p.x + (q1.y - current.y) * s.p.y
  let path1 := s.path ++ [q1]
  let valid1 := if -currH ≥ log_u then s.validCandidates ++ [q1] else s.validCandidates
  let recs1 := s.recs ++
    [{ current := current, path := some path1, isFinishedStep := false,
       delay := some 150, details := { phase := some Phase.tree_build } }]
  if dot < 0 then
    { q := q1, p := s.p, grad := grad1, path := path1, validCandidates := valid1,
      stopped := true, steps := s.steps, recs := recs1 }
  else
    { q := q1, p := ⟨s.p.x - epsilon * grad1.x, s.p.y - epsilon * grad1.y⟩,
      grad := grad1, path := path1, validCandidates := valid1,
      stopped := stopped1, steps := s.steps + 1, recs := recs1 }

/-- The NUTS tree-building loop: `while (!stopped && steps < maxSteps)`,
with `maxSteps = 50`. -/
def nutsLoop (current : Point) (gmm : List GMMComponent) (epsilon startH log_u : ℝ)
    (s : NutsState) : NutsState :=
  if hcond : s.stopped = false ∧ s.steps < 50 then
    nutsLoop current gmm epsilon startH log_u (nutsBody current gmm epsilon startH log_u s)
  else s
termination_by (if s.stopped then 0 else 51 - s.steps)
decreasing_by
  obtain ⟨hst, hlt⟩ := hcond
  simp only [nutsBody, hst]
  split
  · simp only [if_true, Bool.false_eq_true, if_false]
    omega
  · simp only
    split
    · simp only [if_true, Bool.false_eq_true, if_false]
      omega
    · simp only [Bool.false_eq_true, if_false]
      omega

/-- The loop state at the start of tree building: the trajectory and the
valid-candidate list are both seeded with the start point, and the initial
half momentum step has been applied. -/
def nutsInitState (current : Point) (gmm : List GMMComponent) (epsilon r1 r2 : ℝ) :
    NutsState :=
  let grad0 := getGradLogProb current gmm
  { q := current, p := ⟨r1 - epsilon * grad0.x / 2, r2 - epsilon * grad0.y / 2⟩,
    grad := grad0, path := [current], validCandidates := [current],
    stopped := false, steps := 0, recs := [] }

/-- `nutsGenerator`: draws `r1, r2` (momentum), `uSlice` (the slice
variable's uniform) and `uSelect` (candidate selection).
`epsilon = stepSize * 0.4`. -/
def nutsRun (current : Point) (params : SimulationParams) (gmm : List GMMComponent)
    (r1 r2 uSlice uSelect : ℝ) : List StepResult × Point :=
  let epsilon := params.stepSize * 0.4
  let startU := -getLogProb current gmm
  let startK := 0.5 * (r1 * r1 + r2 * r2)
  let startH := startU + startK
  let log_u := Real.log uSlice - startH
  let step1 : StepResult :=
    { current := current, isFinishedStep := false, delay := some 1500,
      details := { currentH := some startH, phase := some Phase.momentum } }
  let finalS := nutsLoop current gmm epsilon startH log_u
    (nutsInitState current gmm epsilon r1 r2)
  let sel : Point × Bool :=
    if 0 < finalS.validCandidates.length then
      (finalS.validCandidates.getD
        (Int.toNat (Int.floor (uSelect * (finalS.validCandidates.length : ℝ))))
        current, true)
    else (current, false)
  let step3 : StepResult :=
    { current := sel.1, path := some finalS.path, accepted := some sel.2,
      isFinishedStep := true, delay := some 2000,
      details := { currentH := some startH, phase := some Phase.accept } }
  (step1 :: finalS.recs ++ [step3], sel.1)

/-! ## Spec-side leapfrog scheme and further statement helpers -/

/-- Spec wording (§4.4): positions visited by the leapfrog integrator
after the initial half momentum step: each of the `n` iterations takes a
full position step `q + eps*p` and then a full momentum step
`p - eps*grad(q)` (the update after the final position is irrelevant to
the position list). `p` is the momentum after the initial half step. -/
def specLeapfrogPositions (gmm : List GMMComponent) (eps : ℝ) :
    ℕ → Point → Point → List Point
  | 0, _, _ => []
  | n + 1, q, p =>
    let q1 : Point := ⟨q.x + eps * p.x, q.y + eps * p.y⟩
    q1 :: specLeapfrogPositions gmm eps n q1
      ⟨p.x - eps * (getGradLogProb q1 gmm).x, p.y - eps * (getGradLogProb q1 gmm).y⟩

/-- The momentum after HMC's initial half step,
`p0 - (eps/2) * grad(current)` with `eps = stepSize * 0.5`. -/
def hmcPHalf (current : Point) (params : SimulationParams) (gmm : List GMMComponent)
    (r1 r2 : ℝ) : Point :=
  ⟨r1 - params.stepSize * 0.5 * (getGradLogProb current gmm).x / 2,
   r2 - params.stepSize * 0.5 * (getGradLogProb current gmm).y / 2⟩

/-- The initial state of the HMC leapfrog loop. -/
def hmcLoopInit (current : Point) (params : SimulationParams) (gmm : List GMMComponent)
    (r1 r2 : ℝ) : HmcLoopState :=
  { q := current, p := hmcPHalf current params gmm r1 r2,
    grad := getGradLogProb current gmm, path := [current], recs := [] }

/-- The final state of the HMC leapfrog loop for one cycle. -/
def hmcLoopOut (current : Point) (params : SimulationParams) (gmm : List GMMComponent)
    (r1 r2 : ℝ) : HmcLoopState :=
  hmcLoop current gmm (params.stepSize * 0.5) (max 100 (2500 / numStepsEff params))
    (numStepsEff params) (hmcLoopInit current params gmm r1 r2)

/-- The HMC proposal: the final leapfrog position of the cycle. -/
def hmcFinalPos (current : Point) (params : SimulationParams) (gmm : List GMMComponent)
    (r1 r2 : ℝ) : Point :=
  (hmcLoopOut current params gmm r1 r2).q

/-! ## Concrete run used to analyse the NUTS selection step

A single sharply-peaked component (covariance `I/2`, weight `pi*exp(2000)`
so the density at the mode is exactly `exp(2000)`), chain at the mode,
`stepSize = 5/2` (so `epsilon = 1`), momentum draw `(34, 0)`, slice draw
`1/2`, selection draw `0`.  The first tree step lands at `(34, 0)` where
the energy has risen by more than 1000, so the cycle stops by divergence
after one iteration and the new point fails the slice test. -/

/-- The mixture for the concrete NUTS run. -/
def ceGmm : List GMMComponent :=
  [ { id := 1, mu := (0, 0), sigma := ((1/2, 0), (0, 1/2)),
      weight := Real.pi * Real.exp 2000 } ]

/-- The starting point of the concrete NUTS run. -/
def cePoint : Point := ⟨0, 0⟩

/-- The parameters of the concrete NUTS run. -/
def ceParams : SimulationParams := { stepSize := 5/2, numSteps := none, friction := none }

/-- Start energy of the concrete NUTS run:
`-log(exp 2000 + 1e-20) + 0.5*34^2`. -/
def ceStartH : ℝ := -Real.log (Real.exp 2000 + 1e-20) + 578

/-- Log slice threshold of the concrete NUTS run. -/
def ceLogU : ℝ := Real.log (1 / 2) - ceStartH

/-- The loop state of the concrete NUTS run before tree building. -/
def ceState0 : NutsState :=
  { q := ⟨0, 0⟩, p := ⟨34, 0⟩, grad := ⟨0, 0⟩, path := [⟨0, 0⟩],
    validCandidates := [⟨0, 0⟩], stopped := false, steps := 0, recs := [] }


/-- The loop state of the concrete NUTS run after tree building: stopped by
divergence after one step, with no tree point added to the candidates. -/
def ceState1 : NutsState :=
  { q := ⟨34, 0⟩,
    p := ⟨34 + 68 * (Real.exp 844 / (Real.exp 844 + 1e-20)), 0⟩,
    grad := ⟨-(68) * Real.exp 844 / (Real.exp 844 + 1e-20), 0⟩,
    path := [⟨0, 0⟩, ⟨34, 0⟩],
    validCandidates := [⟨0, 0⟩],
    stopped := true,
    steps := 1,
    recs := [ { current := ⟨0, 0⟩, path := some [⟨0, 0⟩, ⟨34, 0⟩],
                isFinishedStep := false, delay := some 150,
                details := { phase := some Phase.tree_build } } ] }


/-- The NUTS loop's final state for one cycle (everything before the
selection draw is consumed). -/
def nutsFinalState (current : Point) (params : SimulationParams) (gmm : List GMMComponent)
    (r1 r2 uSlice : ℝ) : NutsState :=
  nutsLoop current gmm (params.stepSize * 0.4)
    (-getLogProb current gmm + 0.5 * (r1 * r1 + r2 * r2))
    (Real.log uSlice - (-getLogProb current gmm + 0.5 * (r1 * r1 + r2 * r2)))
    (nutsInitState current gmm (params.stepSize * 0.4) r1 r2)


/-! ### Bridging lemmas for the density module -/

theorem codeDensity_eq_spec (p : Point) (g : GMMComponent) :
    g.weight * (1 / (2 * Real.pi * Real.sqrt |(getGaussianProps g).det|)) *
      Real.exp (-0.5 *
        ((p.x - g.mu.1) * ((getGaussianProps g).invSig.1.1 * (p.x - g.mu.1) +
            (getGaussianProps g).invSig.1.2 * (p.y - g.mu.2)) +
         (p.y - g.mu.2) * ((getGaussianProps g).invSig.2.1 * (p.x - g.mu.1) +
            (getGaussianProps g).invSig.2.2 * (p.y - g.mu.2)))) =
    specComponentDensity p g := by
  have hdet : (getGaussianProps g).det = specDet g := rfl
  have hmah :
      (p.x - g.mu.1) * ((getGaussianProps g).invSig.1.1 * (p.x - g.mu.1) +
          (getGaussianProps g).invSig.1.2 * (p.y - g.mu.2)) +
        (p.y - g.mu.2) * ((getGaussianProps g).invSig.2.1 * (p.x - g.mu.1) +
          (getGaussianProps g).invSig.2.2 * (p.y - g.mu.2)) =
      specMahalanobis p g := by
    simp only [getGaussianProps, specMahalanobis, specInvSig, specDet]
    ring
  rw [hmah, hdet]
  simp only [specComponentDensity, specNorm]

theorem codeGradContrib_eq_spec_x (p : Point) (g : GMMComponent) :
    -((getGaussianProps g).invSig.1.1 * (p.x - g.mu.1) +
        (getGaussianProps g).invSig.1.2 * (p.y - g.mu.2)) =
    specGradContribX p g := by
  simp only [getGaussianProps, specGradContribX, specInvSig, specDet]
  ring

theorem codeGradContrib_eq_spec_y (p : Point) (g : GMMComponent) :
    -((getGaussianProps g).invSig.2.1 * (p.x - g.mu.1) +
        (getGaussianProps g).invSig.2.2 * (p.y - g.mu.2)) =
    specGradContribY p g := by
  simp only [getGaussianProps, specGradContribY, specInvSig, specDet]
  ring

theorem getLogProb_fold (p : Point) (G : List GMMComponent) : ∀ a : ℝ,
    (G.foldl (fun sumProb g =>
      sumProb + g.weight * (1 / (2 * Real.pi * Real.sqrt |(getGaussianProps g).det|)) *
        Real.exp (-0.5 *
          ((p.x - g.mu.1) * ((getGaussianProps g).invSig.1.1 * (p.x - g.mu.1) +
              (getGaussianProps g).invSig.1.2 * (p.y - g.mu.2)) +
           (p.y - g.mu.2) * ((getGaussianProps g).invSig.2.1 * (p.x - g.mu.1) +
              (getGaussianProps g).invSig.2.2 * (p.y - g.mu.2))))) a) =
    a + specMixtureSum p G := by
  induction G with
  | nil => intro a; simp [specMixtureSum]
  | cons g gs ih =>
    intro a
    simp only [List.foldl_cons, specMixtureSum, List.map_cons, List.sum_cons]
    rw [ih, codeDensity_eq_spec]
    simp only [specMixtureSum]
    ring

theorem getLogProb_eq_spec (p : Point) (G : List GMMComponent) :
    getLogProb p G = Real.log (specMixtureSum p G + 1e-20) := by
  have h : getLogProb p G =
      Real.log ((G.foldl (fun sumProb g =>
        sumProb + g.weight * (1 / (2 * Real.pi * Real.sqrt |(getGaussianProps g).det|)) *
          Real.exp (-0.5 *
            ((p.x - g.mu.1) * ((getGaussianProps g).invSig.1.1 * (p.x - g.mu.1) +
                (getGaussianProps g).invSig.1.2 * (p.y - g.mu.2)) +
             (p.y - g.mu.2) * ((getGaussianProps g).invSig.2.1 * (p.x - g.mu.1) +
                (getGaussianProps g).invSig.2.2 * (p.y - g.mu.2))))) 0) + 1e-20) := rfl
  rw [h, getLogProb_fold p G 0, zero_add]

theorem getGradLogProb_fold (p : Point) (G : List GMMComponent) : ∀ a b c : ℝ,
    (G.foldl (fun (acc : ℝ × ℝ × ℝ) g =>
      (acc.1 + g.weight * (1 / (2 * Real.pi * Real.sqrt |(getGaussianProps g).det|)) *
          Real.exp (-0.5 *
            ((p.x - g.mu.1) * ((getGaussianProps g).invSig.1.1 * (p.x - g.mu.1) +
                (getGaussianProps g).invSig.1.2 * (p.y - g.mu.2)) +
             (p.y - g.mu.2) * ((getGaussianProps g).invSig.2.1 * (p.x - g.mu.1) +
                (getGaussianProps g).invSig.2.2 * (p.y - g.mu.2)))),
       acc.2.1 + (g.weight * (1 / (2 * Real.pi * Real.sqrt |(getGaussianProps g).det|)) *
          Real.exp (-0.5 *
            ((p.x - g.mu.1) * ((getGaussianProps g).invSig.1.1 * (p.x - g.mu.1) +
                (getGaussianProps g).invSig.1.2 * (p.y - g.mu.2)) +
             (p.y - g.mu.2) * ((getGaussianProps g).invSig.2.1 * (p.x - g.mu.1) +
                (getGaussianProps g).invSig.2.2 * (p.y - g.mu.2))))) *
          (-((getGaussianProps g).invSig.1.1 * (p.x - g.mu.1) +
             (getGaussianProps g).invSig.1.2 * (p.y - g.mu.2))),
       acc.2.2 + (g.weight * (1 / (2 * Real.pi * Real.sqrt |(getGaussianProps g).det|)) *
          Real.exp (-0.5 *
            ((p.x - g.mu.1) * ((getGaussianProps g).invSig.1.1 * (p.x - g.mu.1) +
                (getGaussianProps g).invSig.1.2 * (p.y - g.mu.2)) +
             (p.y - g.mu.2) * ((getGaussianProps g).invSig.2.1 * (p.x - g.mu.1) +
                (getGaussianProps g).invSig.2.2 * (p.y - g.mu.2))))) *
          (-((getGaussianProps g).invSig.2.1 * (p.x - g.mu.1) +
             (getGaussianProps g).invSig.2.2 * (p.y - g.mu.2)))))
      (a, b, c)) =
    (a + specMixtureSum p G, b + specGradNumerX p G, c + specGradNumerY p G) := by
  induction G with
  | nil => intro a b c; simp [specMixtureSum, specGradNumerX, specGradNumerY]
  | cons g gs ih =>
    intro a b c
    simp only [List.foldl_cons]
    rw [ih]
    simp only [specMixtureSum, specGradNumerX, specGradNumerY, List.map_cons,
      List.sum_cons]
    rw [codeDensity_eq_spec]
    refine Prod.ext ?_ (Prod.ext ?_ ?_)
    · simp only; ring
    · simp only
      rw [codeGradContrib_eq_spec_x]
      ring
    · simp only
      rw [codeGradContrib_eq_spec_y]
      ring

theorem getGradLogProb_eq_spec (p : Point) (G : List GMMComponent) :
    getGradLogProb p G =
      ⟨specGradNumerX p G / (specMixtureSum p G + 1e-20),
       specGradNumerY p G / (specMixtureSum p G + 1e-20)⟩ := by
  have h : getGradLogProb p G =
      { x := (G.foldl (fun (acc : ℝ × ℝ × ℝ) g =>
          (acc.1 + g.weight * (1 / (2 * Real.pi * Real.sqrt |(getGaussianProps g).det|)) *
              Real.exp (-0.5 *
                ((p.x - g.mu.1) * ((getGaussianProps g).invSig.1.1 * (p.x - g.mu.1) +
                    (getGaussianProps g).invSig.1.2 * (p.y - g.mu.2)) +
                 (p.y - g.mu.2) * ((getGaussianProps g).invSig.2.1 * (p.x - g.mu.1) +
                    (getGaussianProps g).invSig.2.2 * (p.y - g.mu.2)))),
           acc.2.1 + (g.weight * (1 / (2 * Real.pi * Real.sqrt |(getGaussianProps g).det|)) *
              Real.exp (-0.5 *
                ((p.x - g.mu.1) * ((getGaussianProps g).invSig.1.1 * (p.x - g.mu.1) +
                    (getGaussianProps g).invSig.1.2 * (p.y - g.mu.2)) +
                 (p.y - g.mu.2) * ((getGaussianProps g).invSig.2.1 * (p.x - g.mu.1) +
                    (getGaussianProps g).invSig.2.2 * (p.y - g.mu.2))))) *
              (-((getGaussianProps g).invSig.1.1 * (p.x - g.mu.1) +
                 (getGaussianProps g).invSig.1.2 * (p.y - g.mu.2))),
           acc.2.2 + (g.weight * (1 / (2 * Real.pi * Real.sqrt |(getGaussianProps g).det|)) *
              Real.exp (-0.5 *
                ((p.x - g.mu.1) * ((getGaussianProps g).invSig.1.1 * (p.x - g.mu.1) +
                    (getGaussianProps g).invSig.1.2 * (p.y - g.mu.2)) +
                 (p.y - g.mu.2) * ((getGaussianProps g).invSig.2.1 * (p.x - g.mu.1) +
                    (getGaussianProps g).invSig.2.2 * (p.y - g.mu.2))))) *
              (-((getGaussianProps g).invSig.2.1 * (p.x - g.mu.1) +
                 (getGaussianProps g).invSig.2.2 * (p.y - g.mu.2)))))
          ((0 : ℝ), (0 : ℝ), (0 : ℝ))).2.1 /
          ((G.foldl (fun (acc : ℝ × ℝ × ℝ) g =>
          (acc.1 + g.weight * (1 / (2 * Real.pi * Real.sqrt |(getGaussianProps g).det|)) *
              Real.exp (-0.5 *
                ((p.x - g.mu.1) * ((getGaussianProps g).invSig.1.1 * (p.x - g.mu.1) +
                    (getGaussianProps g).invSig.1.2 * (p.y - g.mu.2)) +
                 (p.y - g.mu.2) * ((getGaussianProps g).invSig.2.1 * (p.x - g.mu.1) +
                    (getGaussianProps g).invSig.2.2 * (p.y - g.mu.2)))),
           acc.2.1 + (g.weight * (1 / (2 * Real.pi * Real.sqrt |(getGaussianProps g).det|)) *
              Real.exp (-0.5 *
                ((p.x - g.mu.1) * ((getGaussianProps g).invSig.1.1 * (p.x - g.mu.1) +
                    (getGaussianProps g).invSig.1.2 * (p.y - g.mu.2)) +
                 (p.y - g.mu.2) * ((getGaussianProps g).invSig.2.1 * (p.x - g.mu.1) +
                    (getGaussianProps g).invSig.2.2 * (p.y - g.mu.2))))) *
              (-((getGaussianProps g).invSig.1.1 * (p.x - g.mu.1) +
                 (getGaussianProps g).invSig.1.2 * (p.y - g.mu.2))),
           acc.2.2 + (g.weight * (1 / (2 * Real.pi * Real.sqrt |(getGaussianProps g).det|)) *
              Real.exp (-0.5 *
                ((p.x - g.mu.1) * ((getGaussianProps g).invSig.1.1 * (p.x - g.mu.1) +
                    (getGaussianProps g).invSig.1.2 * (p.y - g.mu.2)) +
                 (p.y - g.mu.2) * ((getGaussianProps g).invSig.2.1 * (p.x - g.mu.1) +
                    (getGaussianProps g).invSig.2.2 * (p.y - g.mu.2))))) *
              (-((getGaussianProps g).invSig.2.1 * (p.x - g.mu.1) +
                 (getGaussianProps g).invSig.2.2 * (p.y - g.mu.2)))))
          ((0 : ℝ), (0 : ℝ), (0 : ℝ))).1 + 1e-20),
        y := (G.foldl (fun (acc : ℝ × ℝ × ℝ) g =>
          (acc.1 + g.weight * (1 / (2 * Real.pi * Real.sqrt |(getGaussianProps g).det|)) *
              Real.exp (-0.5 *
                ((p.x - g.mu.1) * ((getGaussianProps g).invSig.1.1 * (p.x - g.mu.1) +
                    (getGaussianProps g).invSig.1.2 * (p.y - g.mu.2)) +
                 (p.y - g.mu.2) * ((getGaussianProps g).invSig.2.1 * (p.x - g.mu.1) +
                    (getGaussianProps g).invSig.2.2 * (p.y - g.mu.2)))),
           acc.2.1 + (g.weight * (1 / (2 * Real.pi * Real.sqrt |(getGaussianProps g).det|)) *
              Real.exp (-0.5 *
                ((p.x - g.mu.1) * ((getGaussianProps g).invSig.1.1 * (p.x - g.mu.1) +
                    (getGaussianProps g).invSig.1.2 * (p.y - g.mu.2)) +
                 (p.y - g.mu.2) * ((getGaussianProps g).invSig.2.1 * (p.x - g.mu.1) +
                    (getGaussianProps g).invSig.2.2 * (p.y - g.mu.2))))) *
              (-((getGaussianProps g).invSig.1.1 * (p.x - g.mu.1) +
                 (getGaussianProps g).invSig.1.2 * (p.y - g.mu.2))),
           acc.2.2 + (g.weight * (1 / (2 * Real.pi * Real.sqrt |(getGaussianProps g).det|)) *
              Real.exp (-0.5 *
                ((p.x - g.mu.1) * ((getGaussianProps g).invSig.1.1 * (p.x - g.mu.1) +
                    (getGaussianProps g).invSig.1.2 * (p.y - g.mu.2)) +
                 (p.y - g.mu.2) * ((getGaussianProps g).invSig.2.1 * (p.x - g.mu.1) +
                    (getGaussianProps g).invSig.2.2 * (p.y - g.mu.2))))) *
              (-((getGaussianProps g).invSig.2.1 * (p.x - g.mu.1) +
                 (getGaussianProps g).invSig.2.2 * (p.y - g.mu.2)))))
          ((0 : ℝ), (0 : ℝ), (0 : ℝ))).2.2 /
          ((G.foldl (fun (acc : ℝ × ℝ × ℝ) g =>
          (acc.1 + g.weight * (1 / (2 * Real.pi * Real.sqrt |(getGaussianProps g).det|)) *
              Real.exp (-0.5 *
                ((p.x - g.mu.1) * ((getGaussianProps g).invSig.1.1 * (p.x - g.mu.1) +
                    (getGaussianProps g).invSig.1.2 * (p.y - g.mu.2)) +
                 (p.y - g.mu.2) * ((getGaussianProps g).invSig.2.1 * (p.x - g.mu.1) +
                    (getGaussianProps g).invSig.2.2 * (p.y - g.mu.2)))),
           acc.2.1 + (g.weight * (1 / (2 * Real.pi * Real.sqrt |(getGaussianProps g).det|)) *
              Real.exp (-0.5 *
                ((p.x - g.mu.1) * ((getGaussianProps g).invSig.1.1 * (p.x - g.mu.1) +
                    (getGaussianProps g).invSig.1.2 * (p.y - g.mu.2)) +
                 (p.y - g.mu.2) * ((getGaussianProps g).invSig.2.1 * (p.x - g.mu.1) +
                    (getGaussianProps g).invSig.2.2 * (p.y - g.mu.2))))) *
              (-((getGaussianProps g).invSig.1.1 * (p.x - g.mu.1) +
                 (getGaussianProps g).invSig.1.2 * (p.y - g.mu.2))),
           acc.2.2 + (g.weight * (1 / (2 * Real.pi * Real.sqrt |(getGaussianProps g).det|)) *
              Real.exp (-0.5 *
                ((p.x - g.mu.1) * ((getGaussianProps g).invSig.1.1 * (p.x - g.mu.1) +
                    (getGaussianProps g).invSig.1.2 * (p.y - g.mu.2)) +
                 (p.y - g.mu.2) * ((getGaussianProps g).invSig.2.1 * (p.x - g.mu.1) +
                    (getGaussianProps g).invSig.2.2 * (p.y - g.mu.2))))) *
              (-((getGaussianProps g).invSig.2.1 * (p.x - g.mu.1) +
                 (getGaussianProps g).invSig.2.2 * (p.y - g.mu.2)))))
          ((0 : ℝ), (0 : ℝ), (0 : ℝ))).1 + 1e-20) } := rfl
  rw [h, getGradLogProb_fold p G 0 0 0]
  simp

theorem specMixtureSum_nonneg (p : Point) (G : List GMMComponent)
    (hw : ∀ g ∈ G, 0 ≤ g.weight) : 0 ≤ specMixtureSum p G := by
  refine List.sum_nonneg ?_
  intro a ha
  obtain ⟨g, hg, rfl⟩ := List.mem_map.mp ha
  have h1 : 0 ≤ specNorm g := by
    unfold specNorm
    positivity
  have := hw g hg
  have h2 : 0 ≤ Real.exp (-0.5 * specMahalanobis p g) := (Real.exp_pos _).le
  unfold specComponentDensity
  positivity

/-! ## Claim theorems -/

/-- C1: for every point `p` and component list `G`, `getLogProb p G`
equals `ln(S + 1e-20)` where `S` is the sum over components of
`weight * (1/(2*pi*sqrt|det|)) * exp(-0.5 * mahalanobis)`, the Mahalanobis
form being computed with the closed-form 2x2 inverse scaled by `1/det`,
and the normalization using `|det|`.  (Proved without any assumption on
the determinants: the identity holds for every `G`.) -/
theorem claim_C1_logDensity (p : Point) (G : List GMMComponent) :
    getLogProb p G = Real.log (specMixtureSum p G + 1e-20) :=
  getLogProb_eq_spec p G

/-- C2: `getGradLogProb` is the density-weighted average
`(sum_i density_i * (-Sigma_i^{-1} dx_i)) / (sum_i density_i + 1e-20)`
with exactly the per-component densities of `getLogProb`, and
`exp(getLogProb p G)` equals that same denominator (weights are
nonnegative per the data model, which makes the mixture sum nonnegative). -/
theorem claim_C2_gradConsistency (p : Point) (G : List GMMComponent)
    (hw : ∀ g ∈ G, 0 ≤ g.weight) :
    getGradLogProb p G =
      ⟨specGradNumerX p G / (specMixtureSum p G + 1e-20),
       specGradNumerY p G / (specMixtureSum p G + 1e-20)⟩ ∧
    Real.exp (getLogProb p G) = specMixtureSum p G + 1e-20 := by
  refine ⟨getGradLogProb_eq_spec p G, ?_⟩
  rw [getLogProb_eq_spec]
  have h0 : (0 : ℝ) < specMixtureSum p G + 1e-20 := by
    have := specMixtureSum_nonneg p G hw
    have h1 : (0 : ℝ) < 1e-20 := by norm_num
    linarith
  exact Real.exp_log h0

/-- Witness for C2 at the default mixture and the origin. -/
theorem claim_C2_witness :
    (∀ g ∈ DEFAULT_GMM, (0 : ℝ) ≤ g.weight) ∧
    (getGradLogProb ⟨0, 0⟩ DEFAULT_GMM =
      ⟨specGradNumerX ⟨0, 0⟩ DEFAULT_GMM / (specMixtureSum ⟨0, 0⟩ DEFAULT_GMM + 1e-20),
       specGradNumerY ⟨0, 0⟩ DEFAULT_GMM / (specMixtureSum ⟨0, 0⟩ DEFAULT_GMM + 1e-20)⟩ ∧
     Real.exp (getLogProb ⟨0, 0⟩ DEFAULT_GMM) = specMixtureSum ⟨0, 0⟩ DEFAULT_GMM + 1e-20) := by
  have hw : ∀ g ∈ DEFAULT_GMM, (0 : ℝ) ≤ g.weight := by
    intro g hg
    simp only [DEFAULT_GMM, List.mem_cons, List.mem_singleton] at hg
    rcases hg with rfl | rfl | h
    · norm_num
    · norm_num
    · simp at h
  exact ⟨hw, claim_C2_gradConsistency ⟨0, 0⟩ DEFAULT_GMM hw⟩

/-- C10: with an empty component list the density module still returns
defined, finite values: `getLogProb p [] = ln(1e-20)` and
`getGradLogProb p [] = (0, 0)`. -/
theorem claim_C10_emptyMixture (p : Point) :
    getLogProb p [] = Real.log 1e-20 ∧ getGradLogProb p [] = ⟨0, 0⟩ := by
  constructor
  · have h : getLogProb p [] = Real.log ((0 : ℝ) + 1e-20) := rfl
    rw [h, zero_add]
  · have h : getGradLogProb p [] =
        ⟨(0 : ℝ) / ((0 : ℝ) + 1e-20), (0 : ℝ) / ((0 : ℝ) + 1e-20)⟩ := rfl
    rw [h]
    simp

/-- C3: one MH cycle emits exactly three records, with phases
`proposal`, `compute`, then `accept` or `reject`; only the third is
`isFinishedStep`; the proposal is `current + N(0, stepSize^2)` per
coordinate (normal draws `r1, r2`); the acceptance probability is
`min(1, exp(logP(proposal) - logP(current)))`; the move is accepted iff
`dice < alpha`; and the terminal record's `current` (also the returned
point) is the proposal when accepted, the unchanged start otherwise. -/
theorem claim_C3_mhCycle (current : Point) (params : SimulationParams)
    (gmm : List GMMComponent) (r1 r2 dice : ℝ) :
    (mhRun current params gmm r1 r2 dice).1.length = 3 ∧
    (mhRun current params gmm r1 r2 dice).1.map (fun r => r.details.phase) =
      [some Phase.proposal, some Phase.compute,
       some (if dice < mhAcceptProb current params gmm r1 r2
             then Phase.accept else Phase.reject)] ∧
    (mhRun current params gmm r1 r2 dice).1.map (fun r => r.isFinishedStep) =
      [false, false, true] ∧
    (∀ r ∈ (mhRun current params gmm r1 r2 dice).1,
       r.proposal = some (mhProposal current params r1 r2)) ∧
    (mhRun current params gmm r1 r2 dice).1.getLast?.map (fun r => r.accepted) =
      some (some (decide (dice < mhAcceptProb current params gmm r1 r2))) ∧
    (mhRun current params gmm r1 r2 dice).1.getLast?.map (fun r => r.current) =
      some (if dice < mhAcceptProb current params gmm r1 r2
            then mhProposal current params r1 r2 else current) ∧
    (mhRun current params gmm r1 r2 dice).2 =
      (if dice < mhAcceptProb current params gmm r1 r2
       then mhProposal current params r1 r2 else current) := by
  by_cases h : dice < mhAcceptProb current params gmm r1 r2
  · simp only [mhAcceptProb, mhProposal] at h
    simp [mhRun, mhAcceptProb, mhProposal, h]
  · simp only [mhAcceptProb, mhProposal] at h
    simp [mhRun, mhAcceptProb, mhProposal, h]

/-- C8: the Gibbs terminal record's `accepted` flag is `true` iff the
cycle's final point differs from the starting point on at least one axis,
for every combination of draws (hence independently of how the two
Metropolis sub-updates went). -/
theorem claim_C8_gibbsAcceptedFlag (current : Point) (params : SimulationParams)
    (gmm : List GMMComponent) (rX uX rY uY : ℝ) :
    ((gibbsRun current params gmm rX uX rY uY).1.getLast?.map (fun r => r.accepted) =
      some (some true)) ↔
    ((gibbsRun current params gmm rX uX rY uY).2.x ≠ current.x ∨
     (gibbsRun current params gmm rX uX rY uY).2.y ≠ current.y) := by
  simp [gibbsRun]

/-! ### HMC loop lemmas -/

theorem hmcLoop_recs_len (current : Point) (gmm : List GMMComponent) (epsilon : ℝ)
    (stepDelay : ℕ) : ∀ (n : ℕ) (s : HmcLoopState),
    (hmcLoop current gmm epsilon stepDelay n s).recs.length = s.recs.length + n := by
  intro n
  induction n with
  | zero => intro s; simp [hmcLoop]
  | succ n ih =>
    intro s
    rw [hmcLoop, ih]
    simp
    omega

theorem specLeapfrogPositions_length (gmm : List GMMComponent) (eps : ℝ) :
    ∀ (n : ℕ) (q p : Point), (specLeapfrogPositions gmm eps n q p).length = n := by
  intro n
  induction n with
  | zero => intro q p; simp [specLeapfrogPositions]
  | succ n ih => intro q p; rw [specLeapfrogPositions]; simp [ih]

theorem hmcLoop_path_spec (current : Point) (gmm : List GMMComponent) (epsilon : ℝ)
    (stepDelay : ℕ) : ∀ (n : ℕ) (s : HmcLoopState),
    (hmcLoop current gmm epsilon stepDelay n s).path =
      s.path ++ specLeapfrogPositions gmm epsilon n s.q s.p := by
  intro n
  induction n with
  | zero => intro s; simp [hmcLoop, specLeapfrogPositions]
  | succ n ih =>
    intro s
    rw [hmcLoop, ih, specLeapfrogPositions]
    by_cases hn : n = 0
    · subst hn
      simp [specLeapfrogPositions]
    · rw [if_neg hn]
      simp

theorem hmcRun_length (current : Point) (params : SimulationParams)
    (gmm : List GMMComponent) (r1 r2 dice : ℝ) :
    (hmcRun current params gmm r1 r2 dice).1.length = numStepsEff params + 2 := by
  simp only [hmcRun]
  simp [hmcLoop_recs_len]

theorem hmcRun_terminal_path (current : Point) (params : SimulationParams)
    (gmm : List GMMComponent) (r1 r2 dice : ℝ) :
    (hmcRun current params gmm r1 r2 dice).1.getLast?.map (fun r => r.path) =
      some (some (hmcLoopOut current params gmm r1 r2).path) := by
  simp only [hmcRun]
  rw [List.getLast?_concat]
  rfl

theorem hmcLoopOut_path (current : Point) (params : SimulationParams)
    (gmm : List GMMComponent) (r1 r2 : ℝ) :
    (hmcLoopOut current params gmm r1 r2).path =
      current :: specLeapfrogPositions gmm (params.stepSize * 0.5) (numStepsEff params)
        current (hmcPHalf current params gmm r1 r2) := by
  unfold hmcLoopOut hmcLoopInit
  rw [hmcLoop_path_spec]
  simp

/-- C4: for the MH, Gibbs and HMC samplers the terminal emission's
`current` point is either the cycle's starting point or a proposal of the
cycle: for MH the unique proposal, for Gibbs one of the two sub-step
proposals (witnessed by a record of the cycle whose `proposal` field is
exactly the final point), and for HMC the final leapfrog position. -/
theorem claim_C4_terminalPoint :
    (∀ (current : Point) (params : SimulationParams) (gmm : List GMMComponent) (r1 r2 dice : ℝ),
      (mhRun current params gmm r1 r2 dice).1.getLast?.map (fun r => r.current) =
          some (mhProposal current params r1 r2) ∨
      (mhRun current params gmm r1 r2 dice).1.getLast?.map (fun r => r.current) =
          some current) ∧
    (∀ (current : Point) (params : SimulationParams) (gmm : List GMMComponent) (rX uX rY uY : ℝ),
      ((gibbsRun current params gmm rX uX rY uY).1.getLast?.map (fun r => r.current) =
        some (gibbsRun current params gmm rX uX rY uY).2) ∧
      ((gibbsRun current params gmm rX uX rY uY).2 = current ∨
       ∃ r ∈ (gibbsRun current params gmm rX uX rY uY).1,
         r.proposal = some (gibbsRun current params gmm rX uX rY uY).2)) ∧
    (∀ (current : Point) (params : SimulationParams) (gmm : List GMMComponent) (r1 r2 dice : ℝ),
      (hmcRun current params gmm r1 r2 dice).1.getLast?.map (fun r => r.current) =
          some (hmcFinalPos current params gmm r1 r2) ∨
      (hmcRun current params gmm r1 r2 dice).1.getLast?.map (fun r => r.current) =
          some current) := by
  refine ⟨?_, ?_, ?_⟩
  · intro current params gmm r1 r2 dice
    by_cases h : dice < mhAcceptProb current params gmm r1 r2
    · left
      simp only [mhAcceptProb, mhProposal] at h
      simp [mhRun, mhProposal, h]
    · right
      simp only [mhAcceptProb, mhProposal] at h
      simp [mhRun, h]
  · intro current params gmm rX uX rY uY
    constructor
    · simp [gibbsRun]
    · simp only [gibbsRun]
      simp only [List.mem_cons, List.not_mem_nil, or_false]
      split_ifs <;>
        first
          | exact Or.inl rfl
          | exact Or.inr ⟨_, Or.inr (Or.inr rfl), rfl⟩
          | exact Or.inr ⟨_, Or.inr (Or.inl rfl), rfl⟩
  · intro current params gmm r1 r2 dice
    simp only [hmcRun]
    rw [List.getLast?_concat]
    simp only [Option.map_some']
    split_ifs
    · exact Or.inl rfl
    · exact Or.inr rfl

/-- C7: with `numSteps = L ≥ 1`, the HMC terminal record carries (whatever
the accept draw was) the trajectory `current :: (L leapfrog positions)`,
of length `L + 1`, produced by the leapfrog scheme with
`eps = 0.5 * stepSize`: initial half momentum step (`hmcPHalf`), then `L`
full position steps each followed by a full momentum step (the update
after the last position does not affect the position list). -/
theorem claim_C7_hmcTrajectory (current : Point) (params : SimulationParams)
    (gmm : List GMMComponent) (r1 r2 dice : ℝ) (L : ℕ)
    (hL : params.numSteps = some L) (h1 : 1 ≤ L) :
    (hmcRun current params gmm r1 r2 dice).1.getLast?.map (fun r => r.path) =
      some (some (current :: specLeapfrogPositions gmm (params.stepSize * 0.5) L current
        (hmcPHalf current params gmm r1 r2))) ∧
    (current :: specLeapfrogPositions gmm (params.stepSize * 0.5) L current
        (hmcPHalf current params gmm r1 r2)).length = L + 1 := by
  have hLeff : numStepsEff params = L := by
    simp only [numStepsEff, hL]
    rw [if_neg (by omega : ¬L = 0)]
  constructor
  · rw [hmcRun_terminal_path, hmcLoopOut_path, hLeff]
  · simp [specLeapfrogPositions_length]

/-- Witness for C7: concrete instance with `numSteps = 2`. -/
theorem claim_C7_witness :
    ((⟨1, some 2, none⟩ : SimulationParams).numSteps = some 2 ∧ 1 ≤ 2) ∧
    ((hmcRun ⟨0, 0⟩ ⟨1, some 2, none⟩ [] 0 0 0).1.getLast?.map (fun r => r.path) =
      some (some (⟨0, 0⟩ :: specLeapfrogPositions []
        ((⟨1, some 2, none⟩ : SimulationParams).stepSize * 0.5) 2 ⟨0, 0⟩
        (hmcPHalf ⟨0, 0⟩ ⟨1, some 2, none⟩ [] 0 0))) ∧
     (⟨0, 0⟩ :: specLeapfrogPositions []
        ((⟨1, some 2, none⟩ : SimulationParams).stepSize * 0.5) 2 ⟨0, 0⟩
        (hmcPHalf ⟨0, 0⟩ ⟨1, some 2, none⟩ [] 0 0)).length = 2 + 1) :=
  ⟨⟨rfl, by norm_num⟩,
   claim_C7_hmcTrajectory ⟨0, 0⟩ ⟨1, some 2, none⟩ [] 0 0 0 2 rfl (by norm_num)⟩

/-- C9: if `numSteps` is absent or `0`, HMC silently runs with `L = 10`:
the cycle has exactly 12 emissions and the terminal trajectory has exactly
11 points. -/
theorem claim_C9_hmcDefaultL (ss : ℝ) (fr : Option ℝ) (current : Point)
    (gmm : List GMMComponent) (r1 r2 dice : ℝ) :
    ((hmcRun current ⟨ss, none, fr⟩ gmm r1 r2 dice).1.length = 12 ∧
     (hmcRun current ⟨ss, none, fr⟩ gmm r1 r2 dice).1.getLast?.map
       (fun r => Option.map List.length r.path) = some (some 11)) ∧
    ((hmcRun current ⟨ss, some 0, fr⟩ gmm r1 r2 dice).1.length = 12 ∧
     (hmcRun current ⟨ss, some 0, fr⟩ gmm r1 r2 dice).1.getLast?.map
       (fun r => Option.map List.length r.path) = some (some 11)) := by
  have h1 : numStepsEff ⟨ss, none, fr⟩ = 10 := rfl
  have h2 : numStepsEff ⟨ss, some 0, fr⟩ = 10 := rfl
  have hpath : ∀ (pa : SimulationParams), numStepsEff pa = 10 →
      (hmcRun current pa gmm r1 r2 dice).1.getLast?.map
        (fun r => Option.map List.length r.path) = some (some 11) := by
    intro pa hpa
    have hterm := hmcRun_terminal_path current pa gmm r1 r2 dice
    have : (hmcRun current pa gmm r1 r2 dice).1.getLast?.map
        (fun r => Option.map List.length r.path) =
        ((hmcRun current pa gmm r1 r2 dice).1.getLast?.map (fun r => r.path)).map
          (Option.map List.length) := by
      cases (hmcRun current pa gmm r1 r2 dice).1.getLast? <;> simp
    rw [this, hterm, hmcLoopOut_path, hpa]
    simp [specLeapfrogPositions_length]
  refine ⟨⟨?_, hpath _ h1⟩, ⟨?_, hpath _ h2⟩⟩
  · rw [hmcRun_length, h1]
  · rw [hmcRun_length, h2]

/-! ### NUTS loop lemmas -/

theorem nutsBody_facts (c : Point) (g : List GMMComponent) (e a b : ℝ) (s : NutsState) :
    (nutsBody c g e a b s).recs.length = s.recs.length + 1 ∧
    ((nutsBody c g e a b s).steps = s.steps + 1 ∨ (nutsBody c g e a b s).stopped = true) ∧
    ((nutsBody c g e a b s).stopped = false → (nutsBody c g e a b s).steps = s.steps + 1) ∧
    (nutsBody c g e a b s).steps ≤ s.steps + 1 ∧
    s.validCandidates.length ≤ (nutsBody c g e a b s).validCandidates.length := by
  simp only [nutsBody]
  split_ifs <;> simp_all

theorem nutsLoop_facts (c : Point) (g : List GMMComponent) (e a b : ℝ) :
    ∀ (n : ℕ) (s : NutsState),
      (if s.stopped = true then 0 else 51 - s.steps) ≤ n → s.steps ≤ 50 →
      ((nutsLoop c g e a b s).recs.length ≤
         s.recs.length + (if s.stopped = true then 0 else 50 - s.steps)) ∧
      ((nutsLoop c g e a b s).stopped = true ∨ (nutsLoop c g e a b s).steps = 50) ∧
      s.validCandidates.length ≤ (nutsLoop c g e a b s).validCandidates.length := by
  intro n
  induction n with
  | zero =>
    intro s hm hs
    rw [nutsLoop]
    split
    · rename_i hcond2
      exfalso
      obtain ⟨h1, h2⟩ := hcond2
      rw [h1] at hm
      simp at hm
      omega
    · rename_i hcond2
      refine ⟨Nat.le_add_right _ _, ?_, le_refl _⟩
      cases hb : s.stopped
      · right
        rw [hb] at hcond2
        simp at hcond2
        omega
      · left
        rfl
  | succ n ih =>
    intro s hm hs
    rw [nutsLoop]
    split
    · rename_i hcond2
      obtain ⟨h1, h2⟩ := hcond2
      obtain ⟨hbrec, hbstep, hbnostop, hble, hbval⟩ := nutsBody_facts c g e a b s
      have hfuel : (if (nutsBody c g e a b s).stopped = true then 0
          else 51 - (nutsBody c g e a b s).steps) ≤ n := by
        cases hbs : (nutsBody c g e a b s).stopped
        · have hstep := hbnostop hbs
          rw [h1] at hm
          simp at hm
          simp [hstep]
          omega
        · simp
      have hsteps : (nutsBody c g e a b s).steps ≤ 50 := by omega
      obtain ⟨hrec, hstop, hval⟩ := ih (nutsBody c g e a b s) hfuel hsteps
      refine ⟨?_, hstop, le_trans hbval hval⟩
      rw [h1]
      simp only [Bool.false_eq_true, if_false]
      cases hbs : (nutsBody c g e a b s).stopped
      · have hstep := hbnostop hbs
        rw [hbs] at hrec
        simp only [Bool.false_eq_true, if_false] at hrec
        omega
      · rw [hbs] at hrec
        simp only [if_true] at hrec
        omega
    · rename_i hcond2
      refine ⟨Nat.le_add_right _ _, ?_, le_refl _⟩
      cases hb : s.stopped
      · right
        rw [hb] at hcond2
        simp at hcond2
        omega
      · left
        rfl

theorem nutsFinalState_facts (current : Point) (params : SimulationParams)
    (gmm : List GMMComponent) (r1 r2 u1 : ℝ) :
    (nutsFinalState current params gmm r1 r2 u1).recs.length ≤ 50 ∧
    ((nutsFinalState current params gmm r1 r2 u1).stopped = true ∨
     (nutsFinalState current params gmm r1 r2 u1).steps = 50) ∧
    0 < (nutsFinalState current params gmm r1 r2 u1).validCandidates.length := by
  unfold nutsFinalState
  have h := nutsLoop_facts current gmm (params.stepSize * 0.4)
    (-getLogProb current gmm + 0.5 * (r1 * r1 + r2 * r2))
    (Real.log u1 - (-getLogProb current gmm + 0.5 * (r1 * r1 + r2 * r2)))
    51 (nutsInitState current gmm (params.stepSize * 0.4) r1 r2)
    (by simp [nutsInitState]) (by simp [nutsInitState])
  obtain ⟨hrec, hstop, hval⟩ := h
  have e1 : (nutsInitState current gmm (params.stepSize * 0.4) r1 r2).recs.length = 0 := rfl
  have e2 : (if (nutsInitState current gmm (params.stepSize * 0.4) r1 r2).stopped = true then 0
      else 50 - (nutsInitState current gmm (params.stepSize * 0.4) r1 r2).steps) = 50 := rfl
  have e3 : (nutsInitState current gmm (params.stepSize * 0.4) r1 r2).validCandidates.length = 1 := rfl
  exact ⟨by omega, hstop, by omega⟩

theorem nutsRun_length_eq (current : Point) (params : SimulationParams)
    (gmm : List GMMComponent) (r1 r2 u1 u2 : ℝ) :
    (nutsRun current params gmm r1 r2 u1 u2).1.length =
      (nutsFinalState current params gmm r1 r2 u1).recs.length + 2 := by
  have h : nutsFinalState current params gmm r1 r2 u1 =
      nutsLoop current gmm (params.stepSize * 0.4)
        (-getLogProb current gmm + 0.5 * (r1 * r1 + r2 * r2))
        (Real.log u1 - (-getLogProb current gmm + 0.5 * (r1 * r1 + r2 * r2)))
        (nutsInitState current gmm (params.stepSize * 0.4) r1 r2) := rfl
  simp only [nutsRun]
  rw [← h]
  simp

/-- C6: every cycle is a finite emission sequence of the specified length:
MH exactly 3, Gibbs exactly 3, HMC exactly `L + 2`, and NUTS the number of
tree-building emissions (at most 50) plus the 2 bookends, hence at most
52 — the tree loop having ended stopped (divergence or U-turn) or at the
step cap `steps = 50`. -/
theorem claim_C6_emissionCounts :
    (∀ (current : Point) (params : SimulationParams) (gmm : List GMMComponent) (r1 r2 dice : ℝ),
      (mhRun current params gmm r1 r2 dice).1.length = 3) ∧
    (∀ (current : Point) (params : SimulationParams) (gmm : List GMMComponent) (rX uX rY uY : ℝ),
      (gibbsRun current params gmm rX uX rY uY).1.length = 3) ∧
    (∀ (current : Point) (params : SimulationParams) (gmm : List GMMComponent) (r1 r2 dice : ℝ),
      (hmcRun current params gmm r1 r2 dice).1.length = numStepsEff params + 2) ∧
    (∀ (current : Point) (params : SimulationParams) (gmm : List GMMComponent) (r1 r2 u1 u2 : ℝ),
      (nutsRun current params gmm r1 r2 u1 u2).1.length =
        (nutsFinalState current params gmm r1 r2 u1).recs.length + 2 ∧
      (nutsFinalState current params gmm r1 r2 u1).recs.length ≤ 50 ∧
      (nutsRun current params gmm r1 r2 u1 u2).1.length ≤ 52 ∧
      ((nutsFinalState current params gmm r1 r2 u1).stopped = true ∨
       (nutsFinalState current params gmm r1 r2 u1).steps = 50)) := by
  refine ⟨fun _ _ _ _ _ _ => rfl, fun _ _ _ _ _ _ _ => rfl,
    fun c p g r1 r2 d => hmcRun_length c p g r1 r2 d, ?_⟩
  intro c p g r1 r2 u1 u2
  obtain ⟨hrec, hstop, _⟩ := nutsFinalState_facts c p g r1 r2 u1
  have hlen := nutsRun_length_eq c p g r1 r2 u1 u2
  exact ⟨hlen, hrec, by omega, hstop⟩

/-! ### Evaluation of the density module on the concrete NUTS run -/

theorem ce_sqrt : Real.sqrt ((1 : ℝ)/4) = 1/2 := by
  rw [show ((1 : ℝ)/4) = (1/2)^2 by norm_num]
  exact Real.sqrt_sq (by norm_num)

theorem ce_mix0 : specMixtureSum cePoint ceGmm = Real.exp 2000 := by
  simp only [specMixtureSum, ceGmm, List.map_cons, List.map_nil, List.sum_cons, List.sum_nil,
    add_zero, specComponentDensity, specNorm, specDet, specMahalanobis, specInvSig, cePoint]
  norm_num
  rw [show |(1 : ℝ)/4| = 1/4 from abs_of_nonneg (by norm_num), ce_sqrt]
  field_simp [Real.pi_ne_zero]
  ring

theorem ce_mix1 : specMixtureSum ⟨34, 0⟩ ceGmm = Real.exp 844 := by
  simp only [specMixtureSum, ceGmm, List.map_cons, List.map_nil, List.sum_cons, List.sum_nil,
    add_zero, specComponentDensity, specNorm, specDet, specMahalanobis, specInvSig]
  norm_num
  rw [show |(1 : ℝ)/4| = 1/4 from abs_of_nonneg (by norm_num), ce_sqrt]
  rw [show (2000 : ℝ) = 844 + 1156 by norm_num, Real.exp_add, Real.exp_neg]
  field_simp [Real.pi_ne_zero, Real.exp_ne_zero]
  ring

theorem ce_gradX0 : specGradNumerX cePoint ceGmm = 0 := by
  simp only [specGradNumerX, ceGmm, List.map_cons, List.map_nil, List.sum_cons, List.sum_nil,
    add_zero, specGradContribX, specInvSig, specDet, cePoint]
  norm_num

theorem ce_gradY0 : specGradNumerY cePoint ceGmm = 0 := by
  simp only [specGradNumerY, ceGmm, List.map_cons, List.map_nil, List.sum_cons, List.sum_nil,
    add_zero, specGradContribY, specInvSig, specDet, cePoint]
  norm_num

theorem ce_gradX1 : specGradNumerX ⟨34, 0⟩ ceGmm = -(68) * Real.exp 844 := by
  simp only [specGradNumerX, ceGmm, List.map_cons, List.map_nil, List.sum_cons, List.sum_nil,
    add_zero, specComponentDensity, specGradContribX, specNorm, specDet, specMahalanobis,
    specInvSig]
  norm_num
  rw [show |(1 : ℝ)/4| = 1/4 from abs_of_nonneg (by norm_num), ce_sqrt]
  rw [show (2000 : ℝ) = 844 + 1156 by norm_num, Real.exp_add, Real.exp_neg]
  field_simp [Real.pi_ne_zero, Real.exp_ne_zero]
  ring

theorem ce_gradY1 : specGradNumerY ⟨34, 0⟩ ceGmm = 0 := by
  simp only [specGradNumerY, ceGmm, List.map_cons, List.map_nil, List.sum_cons, List.sum_nil,
    add_zero, specGradContribY, specInvSig, specDet]
  norm_num

theorem ce_logProb0 : getLogProb cePoint ceGmm = Real.log (Real.exp 2000 + 1e-20) := by
  rw [getLogProb_eq_spec, ce_mix0]

theorem ce_grad0 : getGradLogProb cePoint ceGmm = ⟨0, 0⟩ := by
  rw [getGradLogProb_eq_spec, ce_gradX0, ce_gradY0]
  simp

theorem ce_logProb1 : getLogProb ⟨34, 0⟩ ceGmm = Real.log (Real.exp 844 + 1e-20) := by
  rw [getLogProb_eq_spec, ce_mix1]

theorem ce_grad1 : getGradLogProb ⟨34, 0⟩ ceGmm =
    ⟨-(68) * Real.exp 844 / (Real.exp 844 + 1e-20), 0⟩ := by
  rw [getGradLogProb_eq_spec, ce_gradX1, ce_gradY1, ce_mix1]
  simp

theorem ce_init : nutsInitState cePoint ceGmm 1 34 0 = ceState0 := by
  simp only [nutsInitState]
  rw [ce_grad0]
  simp only [ceState0, NutsState.mk.injEq, Point.mk.injEq, cePoint]
  norm_num

theorem ce_log_e2000 : (2000 : ℝ) ≤ Real.log (Real.exp 2000 + 1e-20) := by
  have h : Real.log (Real.exp 2000) ≤ Real.log (Real.exp 2000 + 1e-20) :=
    Real.log_le_log (Real.exp_pos 2000) (by norm_num)
  rwa [Real.log_exp] at h

theorem ce_log_e844 : Real.log (Real.exp 844 + 1e-20) ≤ 845 := by
  have h0 : (1e-20 : ℝ) ≤ Real.exp 844 :=
    le_trans (by norm_num) (Real.one_le_exp (by norm_num))
  have h : Real.log (Real.exp 844 + 1e-20) ≤ Real.log (Real.exp 844 * 2) :=
    Real.log_le_log (by positivity) (by linarith)
  rw [Real.log_mul (Real.exp_ne_zero 844) two_ne_zero, Real.log_exp] at h
  have h2 : Real.log 2 < 1 := lt_trans Real.log_two_lt_d9 (by norm_num)
  linarith

theorem ce_body : nutsBody cePoint ceGmm 1 ceStartH ceLogU ceState0 = ceState1 := by
  simp only [nutsBody, ceState0, cePoint]
  norm_num [ce_grad1, ce_logProb1]
  rw [show (1 : ℝ)/100000000000000000000 = 1e-20 from by norm_num]
  have hf : (0 : ℝ) ≤ 68 * Real.exp 844 / (Real.exp 844 + 1e-20) / 2 := by positivity
  have hpfx : (34 : ℝ) ≤
      34 - -(68 * Real.exp 844) / (Real.exp 844 + 1e-20) / 2 := by
    have hring : -(68 * Real.exp 844) / (Real.exp 844 + 1e-20) / 2 =
        -(68 * Real.exp 844 / (Real.exp 844 + 1e-20) / 2) := by ring
    rw [hring]
    linarith
  have hgap : 1000 <
      -Real.log (Real.exp 844 + 1e-20) +
        1/2 * ((34 - -(68 * Real.exp 844) / (Real.exp 844 + 1e-20) / 2) *
          (34 - -(68 * Real.exp 844) / (Real.exp 844 + 1e-20) / 2)) - ceStartH := by
    have h1 := ce_log_e2000
    have h2 := ce_log_e844
    have h3 : (1156 : ℝ) ≤
        (34 - -(68 * Real.exp 844) / (Real.exp 844 + 1e-20) / 2) *
          (34 - -(68 * Real.exp 844) / (Real.exp 844 + 1e-20) / 2) := by nlinarith [hpfx]
    unfold ceStartH
    linarith
  have hlog2 : Real.log ((1 : ℝ)/2) = -Real.log 2 := by
    rw [one_div, Real.log_inv]
  have hlog2b : Real.log 2 < 1 := lt_trans Real.log_two_lt_d9 (by norm_num)
  have hnotC : ¬(1/2 * ((34 - -(68 * Real.exp 844) / (Real.exp 844 + 1e-20) / 2) *
        (34 - -(68 * Real.exp 844) / (Real.exp 844 + 1e-20) / 2)) + ceLogU ≤
      Real.log (Real.exp 844 + 1e-20)) := by
    unfold ceLogU
    rw [hlog2]
    intro hC
    linarith
  rw [if_neg hnotC]
  have hstop : decide (1000 <
      -Real.log (Real.exp 844 + 1e-20) +
        1/2 * ((34 - -(68 * Real.exp 844) / (Real.exp 844 + 1e-20) / 2) *
          (34 - -(68 * Real.exp 844) / (Real.exp 844 + 1e-20) / 2)) - ceStartH) = true :=
    decide_eq_true hgap
  rw [hstop]
  simp only [ceState1, NutsState.mk.injEq, Point.mk.injEq]
  norm_num
  ring

theorem ce_loop : nutsLoop cePoint ceGmm 1 ceStartH ceLogU ceState0 = ceState1 := by
  rw [nutsLoop]
  rw [dif_pos (⟨rfl, by simp [ceState0]⟩ : ceState0.stopped = false ∧ ceState0.steps < 50)]
  rw [ce_body]
  rw [nutsLoop]
  rw [dif_neg (by simp [ceState1] : ¬(ceState1.stopped = false ∧ ceState1.steps < 50))]

theorem ce_finalstate : nutsFinalState cePoint ceParams ceGmm 34 0 (1/2) = ceState1 := by
  unfold nutsFinalState
  have h1 : ceParams.stepSize * 0.4 = (1 : ℝ) := by
    simp only [ceParams]
    norm_num
  rw [h1]
  have h2 : -getLogProb cePoint ceGmm + 0.5 * ((34 : ℝ) * 34 + 0 * 0) = ceStartH := by
    rw [ce_logProb0]
    unfold ceStartH
    norm_num
  rw [h2]
  rw [show Real.log ((1 : ℝ)/2) - ceStartH = ceLogU from rfl]
  rw [ce_init]
  exact ce_loop

theorem nutsRun_terminal_fields (current : Point) (params : SimulationParams)
    (gmm : List GMMComponent) (r1 r2 u1 u2 : ℝ) :
    (nutsRun current params gmm r1 r2 u1 u2).1.getLast?.map (fun r => r.accepted) =
      some (some true) ∧
    (nutsRun current params gmm r1 r2 u1 u2).1.getLast?.map (fun r => r.current) =
      some (nutsRun current params gmm r1 r2 u1 u2).2 ∧
    (nutsRun current params gmm r1 r2 u1 u2).2 =
      (nutsFinalState current params gmm r1 r2 u1).validCandidates.getD
        (Int.toNat (Int.floor (u2 *
          ((nutsFinalState current params gmm r1 r2 u1).validCandidates.length : ℝ)))) current := by
  obtain ⟨-, -, hpos⟩ := nutsFinalState_facts current params gmm r1 r2 u1
  have hdef : nutsFinalState current params gmm r1 r2 u1 =
      nutsLoop current gmm (params.stepSize * 0.4)
        (-getLogProb current gmm + 0.5 * (r1 * r1 + r2 * r2))
        (Real.log u1 - (-getLogProb current gmm + 0.5 * (r1 * r1 + r2 * r2)))
        (nutsInitState current gmm (params.stepSize * 0.4) r1 r2) := rfl
  refine ⟨?_, ?_, ?_⟩
  · simp only [nutsRun]
    rw [← hdef, List.getLast?_concat, if_pos hpos]
    rfl
  · simp only [nutsRun]
    rw [← hdef, List.getLast?_concat, if_pos hpos]
    rfl
  · simp only [nutsRun]
    rw [← hdef, if_pos hpos]

/-- C5 counterexample: a concrete NUTS cycle (single sharp component,
start at its mode, `epsilon = 1`, momentum `(34, 0)`, slice draw `1/2`,
selection draw `0`) in which the one tree point fails the slice condition
`-H >= log_u` — the valid-candidate list keeps only its seeded start point
— yet the terminal emission has `accepted = true`, not `false` as the
claim states (the chain does stay at the start, selected from the
singleton seeded list). -/
theorem claim_C5_counterexample :
    (nutsFinalState cePoint ceParams ceGmm 34 0 (1/2)).validCandidates = [cePoint] ∧
    (nutsRun cePoint ceParams ceGmm 34 0 (1/2) 0).1.getLast?.map (fun r => r.accepted) =
      some (some true) ∧
    (nutsRun cePoint ceParams ceGmm 34 0 (1/2) 0).2 = cePoint := by
  have hvc : (nutsFinalState cePoint ceParams ceGmm 34 0 (1/2)).validCandidates = [cePoint] := by
    rw [ce_finalstate]
    rfl
  obtain ⟨hacc, -, hres⟩ := nutsRun_terminal_fields cePoint ceParams ceGmm 34 0 (1/2) 0
  refine ⟨hvc, hacc, ?_⟩
  rw [hres, hvc]
  norm_num

/-- C5 (amended): the NUTS valid-candidate list is seeded with the
starting point, so it is never empty and the terminal emission always has
`accepted = true`; when no tree point satisfies the slice condition (the
candidate list is still exactly the seeded `[current]`), the uniformly
selected candidate is necessarily the starting point, so the chain stays
in place.  The selection draw is a `Math.random()` result, hence in
`[0, 1)`. -/
theorem claim_C5_amendedBehavior (current : Point) (params : SimulationParams)
    (gmm : List GMMComponent) (r1 r2 u1 u2 : ℝ) (h0 : 0 ≤ u2) (h1 : u2 < 1) :
    ((nutsRun current params gmm r1 r2 u1 u2).1.getLast?.map (fun r => r.accepted) =
      some (some true)) ∧
    ((nutsFinalState current params gmm r1 r2 u1).validCandidates = [current] →
      (nutsRun current params gmm r1 r2 u1 u2).2 = current ∧
      (nutsRun current params gmm r1 r2 u1 u2).1.getLast?.map (fun r => r.current) =
        some current) := by
  obtain ⟨hacc, hcur, hres⟩ := nutsRun_terminal_fields current params gmm r1 r2 u1 u2
  refine ⟨hacc, fun hvc => ?_⟩
  have hfloor : Int.toNat (Int.floor (u2 *
      ((nutsFinalState current params gmm r1 r2 u1).validCandidates.length : ℝ))) = 0 := by
    rw [hvc]
    simp only [List.length_singleton, Nat.cast_one, mul_one]
    rw [Int.floor_eq_zero_iff.mpr (Set.mem_Ico.mpr ⟨h0, h1⟩)]
    rfl
  have h2 : (nutsRun current params gmm r1 r2 u1 u2).2 = current := by
    rw [hres, hfloor, hvc]
    rfl
  exact ⟨h2, by rw [hcur, h2]⟩

/-- Witness for the amended C5 at the concrete run (selection draw `0`). -/
theorem claim_C5_amended_witness :
    ((0 : ℝ) ≤ 0 ∧ (0 : ℝ) < 1) ∧
    (((nutsRun cePoint ceParams ceGmm 34 0 (1/2) 0).1.getLast?.map (fun r => r.accepted) =
       some (some true)) ∧
     ((nutsFinalState cePoint ceParams ceGmm 34 0 (1/2)).validCandidates = [cePoint] →
       (nutsRun cePoint ceParams ceGmm 34 0 (1/2) 0).2 = cePoint ∧
       (nutsRun cePoint ceParams ceGmm 34 0 (1/2) 0).1.getLast?.map (fun r => r.current) =
         some cePoint)) :=
  ⟨⟨le_refl 0, by norm_num⟩,
   claim_C5_amendedBehavior cePoint ceParams ceGmm 34 0 (1/2) 0 (le_refl 0) (by norm_num)⟩
